import Mathlib

/-!
Verification of the request-admission and capability-dispatch core of the
Intric MCP template server against its design document.

The Python sources under src are embedded shallowly: pure functions become
Lean functions, the Starlette middleware becomes an explicit function from a
request and a continuation to a response, and library behaviour that the
repository only configures (FastMCP, PyJWT) is modelled from the design
document where noted.
-/

deriving instance DecidableEq for Except

namespace IntricMCP

/-- A JSON value as it appears in the small response bodies built by the
middleware: a string or null (the JSON rendering of a missing client). -/
inductive JsonVal where
  | str (s : String)
  | null
  deriving DecidableEq, Repr

/-- Renders an optional origin address the way the JSONResponse content in
src/server.py line 57 does: the address itself, or null when absent. -/
def optJson : Option String → JsonVal
  | none => JsonVal.null
  | some s => JsonVal.str s

/-- The parts of an inbound HTTP request that the embedded code inspects:
request.client.host (absent when no client is attached), the URL path, and
the bearer credential consumed only by the auth-gated MCP endpoint. -/
structure Request where
  client : Option String
  path : String
  bearer : Option String
  deriving DecidableEq, Repr

/-- The result of one middleware dispatch call: either a JSONResponse built
by the middleware itself, or the value produced by the call_next
continuation. -/
inductive MWResult (A : Type) where
  | jsonResponse (status_code : Nat) (content : List (String × JsonVal))
  | next (val : A)
  deriving DecidableEq, Repr

/-- The IPAllowlistMiddleware of src/server.py lines 42 to 59; its
constructor stores the configured allowed_ips (membership in the Python set
is membership in this list). -/
structure IPAllowlistMiddleware where
  allowed_ips : List String
  deriving DecidableEq, Repr

/-- The allow_all flag computed in the middleware constructor, line 45:
true when the allowlist contains the wildcard. -/
def IPAllowlistMiddleware.allow_all (m : IPAllowlistMiddleware) : Bool :=
  m.allowed_ips.contains "*"

/-- Membership of the optional client address in the allowlist, as tested on
line 53 of src/server.py: a missing address (Python None) is never a member
of the set of strings. -/
def optMem (ips : List String) : Option String → Bool
  | none => false
  | some ip => ips.contains ip

/-- IPAllowlistMiddleware.dispatch, src/server.py lines 48 to 59. The inner
application (everything behind the middleware, including credential
verification) is the call_next continuation; quantifying theorems over an
arbitrary continuation of an arbitrary type shows that a rejected request
never reaches it. -/
def IPAllowlistMiddleware.dispatch {A : Type} (m : IPAllowlistMiddleware)
    (request : Request) (call_next : Unit → A) : MWResult A :=
  if m.allow_all then MWResult.next (call_next ())
  else if optMem m.allowed_ips request.client = false then
    MWResult.jsonResponse 403
      [ ("error", JsonVal.str "Forbidden"), ("your_ip", optJson request.client) ]
  else MWResult.next (call_next ())

/-- The admission decision of the Network Gate, read off the dispatch
branches of src/server.py lines 48 to 59: a request proceeds to call_next
exactly when the wildcard is configured or its origin is a member of the
allowlist. -/
def IPAllowlistMiddleware.gateAllows (m : IPAllowlistMiddleware)
    (origin : Option String) : Bool :=
  m.allow_all || optMem m.allowed_ips origin

/-- The allowlist configured in src/server.py line 62. -/
def ALLOWED_IPS : List String := [ "*" ]

/-- The possible responses of the composed HTTP application. -/
inductive AppResponse where
  | plainTextResponse (body : String)
  | jsonResponse (status_code : Nat) (content : List (String × JsonVal))
  deriving DecidableEq, Repr

/-- The health_check custom route of src/server.py lines 257 to 259. -/
def health_check (_request : Request) : AppResponse :=
  AppResponse.plainTextResponse "OK"

/-- Modelled from the spec: mcp.http_app(middleware) in src/server.py line
265 is FastMCP and Starlette library code; it routes the custom path
/health to health_check, every other path to the auth-gated MCP endpoint
(kept abstract as mcpApp), and wraps the whole router in the configured
middleware list, so the allowlist middleware runs for every route. -/
def http_app (ips : List String) (mcpApp : Request → AppResponse)
    (request : Request) : AppResponse :=
  match IPAllowlistMiddleware.dispatch ⟨ips⟩ request
      (fun _ => if request.path = "/health" then health_check request
                else mcpApp request) with
  | MWResult.next r => r
  | MWResult.jsonResponse s c => AppResponse.jsonResponse s c

/-- The trust parameters assembled for the JWTVerifier in src/server.py
lines 20 to 25: public_key holds the shared HMAC secret (absent environment
variable modelled as none), issuer and audience default to the empty string
(empty meaning unchecked), and the algorithm is pinned. -/
structure TrustConfig where
  public_key : Option String
  issuer : String
  audience : String
  algorithm : String
  deriving DecidableEq, Repr

/-- The concrete TrustConfig built in src/server.py lines 20 to 25, with the
algorithm pinned to HS256 and the secret, issuer and audience read from the
environment. -/
def serverTrustConfig (secret : Option String) (iss aud : String) : TrustConfig :=
  ⟨secret, iss, aud, "HS256"⟩

/-- Startup configuration failures of the shared-secret verifier. -/
inductive ConfigError where
  | missingSecret
  | tooShortSecret
  deriving DecidableEq, Repr

/-- A successfully constructed verifier, wrapping its immutable trust
configuration. -/
structure JWTVerifier where
  cfg : TrustConfig
  deriving DecidableEq, Repr

/-- Modelled from the spec: JWTVerifier construction is FastMCP library code
not under src; the design requires shared-secret mode to fail fast at
startup with a configuration error when the secret is missing or shorter
than 32 characters, so that the process never starts with such a secret. -/
def jwtVerifierStartup (cfg : TrustConfig) : Except ConfigError JWTVerifier :=
  match cfg.public_key with
  | none => Except.error ConfigError.missingSecret
  | some s =>
    if s.length < 32 then Except.error ConfigError.tooShortSecret
    else Except.ok ⟨cfg⟩

/-- The claims and header fields of a presented bearer credential that the
verifier inspects: the algorithm named in the header, the subject, the
expiry instant (seconds), optional issuer and audience claims, and whether
the signature verifies against the configured key under the algorithm named
in the header. -/
structure Credential where
  alg : String
  sub : String
  exp : Nat
  iss : Option String
  aud : Option String
  sig_ok : Bool
  deriving DecidableEq, Repr

/-- The authenticated-subject result of a successful verification. -/
structure AuthContext where
  subject : String
  claims : Credential
  deriving DecidableEq, Repr

/-- Rejection reasons of the Identity Verifier. -/
inductive AuthError where
  | algorithmMismatch
  | invalidSignature
  | expired
  | issuerMismatch
  | audienceMismatch
  deriving DecidableEq, Repr

/-- Modelled from the spec: JWTVerifier.verify is FastMCP library code not
under src. Per the design, the pinned algorithm is enforced first (a
credential signed with a different algorithm is rejected even if otherwise
valid), then the signature is validated, then expiry (the claim must be in
the future at verification time), then issuer and audience whenever the
corresponding configured value is non-empty. -/
def JWTVerifier.verify (v : JWTVerifier) (now : Nat) (cred : Credential) :
    Except AuthError AuthContext :=
  if cred.alg ≠ v.cfg.algorithm then Except.error AuthError.algorithmMismatch
  else if cred.sig_ok = false then Except.error AuthError.invalidSignature
  else if cred.exp ≤ now then Except.error AuthError.expired
  else if v.cfg.issuer ≠ "" ∧ cred.iss ≠ some v.cfg.issuer then
    Except.error AuthError.issuerMismatch
  else if v.cfg.audience ≠ "" ∧ cred.aud ≠ some v.cfg.audience then
    Except.error AuthError.audienceMismatch
  else Except.ok ⟨cred.sub, cred⟩

/-- The kinds of capability held by the registry. -/
inductive CapabilityKind where
  | tool
  | resource
  | resourceTemplate
  | prompt
  deriving DecidableEq, Repr

/-- A registered capability as far as the permission policy is concerned:
its kind, its protocol address, and the optional requires_permission key of
its metadata mapping. -/
structure CapabilityEntry where
  kind : CapabilityKind
  address : String
  requires_permission_meta : Option Bool
  deriving DecidableEq, Repr

/-- The tool registered with no metadata in src/server.py lines 104 to 117. -/
def add_two_numbers_entry : CapabilityEntry :=
  ⟨CapabilityKind.tool, "add_two_numbers", none⟩

/-- The tool registered with requires_permission set to false in
src/server.py lines 136 to 141. -/
def tool_without_permission_entry : CapabilityEntry :=
  ⟨CapabilityKind.tool, "tool_without_permission", some false⟩

/-- The resource registered with no metadata in src/server.py lines 152 to
155. -/
def get_hello_world_entry : CapabilityEntry :=
  ⟨CapabilityKind.resource, "resource://hello_world", none⟩

/-- The resource registered with requires_permission set to true in
src/server.py lines 175 to 185. -/
def get_hello_world_v2_with_permission_entry : CapabilityEntry :=
  ⟨CapabilityKind.resource, "resource://hello_world_v2_with_permission", some true⟩

/-- Modelled from the spec: the effective requires_permission policy is
applied by the Intric client layer over the FastMCP metadata, not under
src; the metadata override wins when present, otherwise tools default to
requiring permission and resources to not requiring it. -/
def effective_requires_permission (e : CapabilityEntry) : Bool :=
  match e.requires_permission_meta with
  | some b => b
  | none =>
    match e.kind with
    | CapabilityKind.tool => true
    | _ => false

/-- A successful response envelope: the body together with the advisory
requires_permission flag attached for the calling client. -/
structure SuccessEnvelope where
  body : String
  requires_permission : Bool
  deriving DecidableEq, Repr

/-- Modelled from the spec: the permission step of the Dispatch
Pipeline attaches the effective requires_permission of the resolved entry to
the outgoing response envelope. -/
def annotateEnvelope (e : CapabilityEntry) (body : String) : SuccessEnvelope :=
  ⟨body, effective_requires_permission e⟩

/-- A registered resource template, held as the list of segments obtained by
splitting its URI pattern on the slash; a segment delimited by braces is a
placeholder. -/
structure ResourceTemplate where
  segments : List String
  deriving DecidableEq, Repr

/-- Whether a pattern segment is a placeholder: it is delimited by an
opening and a closing brace (written here by code point). -/
def isPlaceholderSeg (s : String) : Bool :=
  match s.data with
  | [] => false
  | c :: cs => c == '\x7b' && (cs.getLastD c == '\x7d')

/-- Whether one pattern segment matches one concrete URI segment: a
placeholder matches any non-empty segment, a literal matches only itself. -/
def segMatch (pat seg : String) : Bool :=
  if isPlaceholderSeg pat then !(seg == "") else pat == seg

/-- Whether a template pattern matches a concrete URI, segment by segment;
the segment lists must have the same length. -/
def segsMatch : List String → List String → Bool
  | [], [] => true
  | p :: ps, s :: ss => segMatch p s && segsMatch ps ss
  | _, _ => false

/-- The number of placeholders of a template, its inverse specificity. -/
def placeholderCount (t : ResourceTemplate) : Nat :=
  t.segments.countP isPlaceholderSeg

/-- Picks from a list of matching templates the first one with the fewest
placeholders: a later candidate replaces the current best only when it has
strictly fewer placeholders. -/
def pickBest : List ResourceTemplate → Option ResourceTemplate
  | [] => none
  | t :: ts =>
    match pickBest ts with
    | none => some t
    | some b =>
      if placeholderCount b < placeholderCount t then some b else some t

/-- Modelled from the spec: ResourceTemplate resolution is FastMCP library
code not under src. Per the design, a concrete URI (represented by its
slash-separated segment list) is pattern-matched against every registered
template; when several match, the one with the fewest placeholders wins and
ties go to the first registered template. -/
def resolveTemplate (registry : List ResourceTemplate) (uri : List String) :
    Option ResourceTemplate :=
  pickBest (registry.filter (fun t => segsMatch t.segments uri))

/-- The template registered in src/server.py lines 196 to 199; splitting the
pattern weather://\x7bcity\x7d/current on the slash gives these segments. -/
def get_current_weather_template : ResourceTemplate :=
  ⟨[ "weather:", "", "{city}", "current" ]⟩

/-- The template registered in src/server.py line 203, imported from
src/resources.py; its pattern has two placeholders and the literal tail
past_weather. -/
def get_past_weather_template : ResourceTemplate :=
  ⟨[ "weather:", "", "{city}", "{date}", "past_weather" ]⟩

/-- The two resource templates in registration order, src/server.py lines
196 to 203. -/
def weatherTemplates : List ResourceTemplate :=
  [ get_current_weather_template, get_past_weather_template ]

/-- The terminal outcomes of the Dispatch Pipeline. -/
inductive PipelineStatus where
  | success
  | forbidden
  | unauthorized
  | notFound
  | invalidInput
  | invocationError
  deriving DecidableEq, Repr

/-- The uniform response envelope produced by the invocation stage. -/
structure Envelope (B : Type) where
  status : PipelineStatus
  body : Option B
  deriving DecidableEq, Repr

/-- Modelled from the spec: the invocation stage of the Dispatch Pipeline is
FastMCP library code not under src; a payload failure is always caught and
wrapped into an InvocationError envelope, never escaping the pipeline. -/
def invokePayload {A B : Type} (payload : A → Except String B) (input : A) :
    Envelope B :=
  match payload input with
  | Except.ok out => ⟨PipelineStatus.success, some out⟩
  | Except.error _ => ⟨PipelineStatus.invocationError, none⟩

/-- Modelled from the spec: the server handles each inbound request as an
independent unit of work, producing one envelope per request in order; the
outcome of one request never affects the handling of the next. -/
def serveAll {A B : Type} (payload : A → Except String B) (requests : List A) :
    List (Envelope B) :=
  requests.map (invokePayload payload)

/-- Modelled from the spec: divide_two_numbers is imported by src/server.py
line 15 from a tools module that is not under src; it divides two numbers
and raises on a zero divisor. -/
def divide_two_numbers (a b : Int) : Except String Int :=
  if b = 0 then Except.error "division by zero" else Except.ok (a / b)

/-- A token as emitted by src/generate_token.py: the pinned signing
algorithm, the signing key, and the payload claims (issuer and audience
present only when configured non-empty). -/
structure JwtToken where
  alg : String
  key : String
  sub : String
  iat : Nat
  exp : Nat
  iss : Option String
  aud : Option String
  deriving DecidableEq, Repr

/-- The token-generation script src/generate_token.py lines 9 to 31: the
secret is read from the environment (absent variable modelled as none) and
the falsy test on line 13 makes the script exit without a token when the
secret is missing or empty; otherwise it emits a token signed with HS256
whose subject is test-user, whose expiry is 365 days (in seconds) after the
issued-at instant, and which carries issuer and audience claims only when
the corresponding environment values are non-empty. -/
def generate_token (secret : Option String) (issuer audience : String)
    (now : Nat) : Option JwtToken :=
  match secret with
  | none => none
  | some s =>
    if s = "" then none
    else some ⟨ "HS256", s, "test-user", now, now + 365 * 86400,
      if issuer = "" then none else some issuer,
      if audience = "" then none else some audience⟩

/-- An admitted request is passed on to the continuation unchanged: the
dispatch branches of src/server.py lines 48 to 59 reach call_next exactly in
the admitted cases. -/
theorem dispatch_next_of_gateAllows {A : Type} (m : IPAllowlistMiddleware)
    (request : Request) (call_next : Unit → A)
    (h : m.gateAllows request.client = true) :
    m.dispatch request call_next = MWResult.next (call_next ()) := by
  unfold IPAllowlistMiddleware.gateAllows at h
  unfold IPAllowlistMiddleware.dispatch
  by_cases h1 : m.allow_all = true
  · simp [h1]
  · simp [h1] at h
    simp [h1, h]

/-- C1: under a non-wildcard allowlist, a request whose origin is not
admitted (origin absent or not a member of the set) is answered by the
middleware itself with the 403 Forbidden JSONResponse whose content names
only the rejected origin, for every continuation call_next of every result
type: the continuation, which contains the Identity Verifier and the rest
of the application, is never consulted. -/
theorem c1_rejected_origin_short_circuit {A : Type} (ips : List String)
    (request : Request) (call_next : Unit → A)
    (hw : "*" ∉ ips)
    (h : optMem ips request.client = false) :
    IPAllowlistMiddleware.dispatch ⟨ips⟩ request call_next =
      MWResult.jsonResponse 403
        [ ("error", JsonVal.str "Forbidden"), ("your_ip", optJson request.client) ] := by
  unfold IPAllowlistMiddleware.dispatch IPAllowlistMiddleware.allow_all
  simp [hw, h]

/-- Witness for C1 at the allowlist of the design example: the request from
10.0.0.2 is rejected with the Forbidden body carrying that address, with a
concrete continuation left uninvoked. -/
theorem c1_witness :
    "*" ∉ ([ "10.0.0.1" ] : List String) ∧
    optMem [ "10.0.0.1" ] (some "10.0.0.2") = false ∧
    IPAllowlistMiddleware.dispatch ⟨[ "10.0.0.1" ]⟩
        ⟨some "10.0.0.2", "/mcp", some "token"⟩ (fun _ => true) =
      MWResult.jsonResponse 403
        [ ("error", JsonVal.str "Forbidden"), ("your_ip", JsonVal.str "10.0.0.2") ] :=
  ⟨by decide, by decide,
    c1_rejected_origin_short_circuit _ _ _ (by decide) (by decide)⟩

/-- C2: the admission decision of the Network Gate admits every origin,
including an absent one, when the allowlist contains the wildcard; under a
non-wildcard allowlist it admits exactly the requests whose origin is
present and an exact string member of the configured set. -/
theorem c2_gate_characterization (ips : List String) (origin : Option String) :
    ("*" ∈ ips → IPAllowlistMiddleware.gateAllows ⟨ips⟩ origin = true) ∧
    ("*" ∉ ips →
      (IPAllowlistMiddleware.gateAllows ⟨ips⟩ origin = true ↔
        ∃ s, origin = some s ∧ s ∈ ips)) := by
  constructor
  · intro hw
    unfold IPAllowlistMiddleware.gateAllows IPAllowlistMiddleware.allow_all
    simp [hw]
  · intro hw
    unfold IPAllowlistMiddleware.gateAllows IPAllowlistMiddleware.allow_all
    cases origin with
    | none => simp [hw, optMem]
    | some ip => simp [hw, optMem]

/-- Witness for C2: the wildcard allowlist admits the absent origin, and the
singleton allowlist of the design example admits 10.0.0.1 exactly because it
is a member. -/
theorem c2_witness :
    ("*" ∈ ([ "*" ] : List String) ∧
      IPAllowlistMiddleware.gateAllows ⟨[ "*" ]⟩ none = true) ∧
    ("*" ∉ ([ "10.0.0.1" ] : List String) ∧
      (IPAllowlistMiddleware.gateAllows ⟨[ "10.0.0.1" ]⟩ (some "10.0.0.1") = true ↔
        ∃ s, (some "10.0.0.1" : Option String) = some s ∧
          s ∈ ([ "10.0.0.1" ] : List String))) :=
  ⟨⟨by decide, (c2_gate_characterization [ "*" ] none).1 (by decide)⟩,
   ⟨by decide, (c2_gate_characterization [ "10.0.0.1" ] (some "10.0.0.1")).2 (by decide)⟩⟩

/-- C7 counterexample: the composed application of src/server.py line 265
wraps every route, the /health custom route included, in the allowlist
middleware, so under a non-wildcard allowlist a /health request from an
origin outside the set receives the 403 Forbidden body instead of the fixed
acknowledgment: /health is subject to the Network Gate. -/
theorem c7_counterexample :
    http_app [ "10.0.0.1" ] (fun _ => AppResponse.plainTextResponse "MCP")
        ⟨some "10.0.0.2", "/health", none⟩ =
      AppResponse.jsonResponse 403
        [ ("error", JsonVal.str "Forbidden"), ("your_ip", JsonVal.str "10.0.0.2") ] ∧
    http_app [ "10.0.0.1" ] (fun _ => AppResponse.plainTextResponse "MCP")
        ⟨some "10.0.0.2", "/health", none⟩ ≠
      AppResponse.plainTextResponse "OK" := by
  decide

/-- C7 as amended: a /health request whose origin the Network Gate admits is
answered with the fixed plain-text acknowledgment regardless of the bearer
credential and regardless of the MCP endpoint behind the router, so the
Identity Verifier is never consulted for it; under the shipped wildcard
allowlist every origin is admitted, hence every /health request is so
answered. -/
theorem c7_health_fixed_acknowledgment (ips : List String)
    (mcpApp : Request → AppResponse) (request : Request)
    (hp : request.path = "/health")
    (ha : IPAllowlistMiddleware.gateAllows ⟨ips⟩ request.client = true) :
    http_app ips mcpApp request = AppResponse.plainTextResponse "OK" := by
  unfold http_app
  rw [dispatch_next_of_gateAllows _ _ _ ha]
  simp [hp, health_check]

/-- C3: in shared-secret mode, a configured secret shorter than 32
characters makes startup fail with the short-secret configuration error, and
no verifier value is ever produced from such a configuration, so no
per-request verification can be attempted with that secret. -/
theorem c3_short_secret_fails_startup (secret iss aud : String)
    (h : secret.length < 32) :
    jwtVerifierStartup (serverTrustConfig (some secret) iss aud) =
      Except.error ConfigError.tooShortSecret ∧
    ∀ v : JWTVerifier,
      jwtVerifierStartup (serverTrustConfig (some secret) iss aud) ≠ Except.ok v := by
  have hs : jwtVerifierStartup (serverTrustConfig (some secret) iss aud) =
      Except.error ConfigError.tooShortSecret := by
    unfold jwtVerifierStartup serverTrustConfig
    simp [h]
  exact ⟨hs, fun v hv => by rw [hs] at hv; exact Except.noConfusion hv⟩

/-- Witness for C3 at a concrete 11-character secret. -/
theorem c3_witness :
    ("short-secret").length < 32 ∧
    jwtVerifierStartup (serverTrustConfig (some "short-secret") "" "") =
      Except.error ConfigError.tooShortSecret :=
  ⟨by decide,
    (c3_short_secret_fails_startup "short-secret" "" "" (by decide)).1⟩

/-- C4: a credential whose header names an algorithm different from the one
pinned in the trust configuration is rejected with AlgorithmMismatch, for
every verifier, every verification instant and every credential, in
particular one whose signature is valid under the algorithm it actually
uses. -/
theorem c4_algorithm_pinned (v : JWTVerifier) (now : Nat) (cred : Credential)
    (h : cred.alg ≠ v.cfg.algorithm) :
    JWTVerifier.verify v now cred = Except.error AuthError.algorithmMismatch := by
  unfold JWTVerifier.verify
  simp [h]

/-- Witness for C4: an unexpired RS256-signed credential whose signature is
valid under RS256 is rejected by the HS256-pinned verifier of the server
configuration. -/
theorem c4_witness :
    (Credential.alg ⟨ "RS256", "alice", 999999, none, none, true⟩ ≠
      TrustConfig.algorithm (serverTrustConfig (some "0123456789abcdef0123456789abcdef") "" "")) ∧
    JWTVerifier.verify ⟨serverTrustConfig (some "0123456789abcdef0123456789abcdef") "" ""⟩
        0 ⟨ "RS256", "alice", 999999, none, none, true⟩ =
      Except.error AuthError.algorithmMismatch :=
  ⟨by decide, c4_algorithm_pinned _ 0 _ (by decide)⟩

/-- C5 counterexample: a credential that is both expired and carries an
invalid signature is rejected with InvalidSignature, not with Expired,
because expiry is only checked after signature validation; so an expired
credential is not always rejected with the Expired error. -/
theorem c5_counterexample :
    (Credential.exp ⟨ "HS256", "alice", 100, none, none, false⟩ ≤ 200) ∧
    JWTVerifier.verify ⟨serverTrustConfig (some "0123456789abcdef0123456789abcdef") "" ""⟩
        200 ⟨ "HS256", "alice", 100, none, none, false⟩ =
      Except.error AuthError.invalidSignature ∧
    JWTVerifier.verify ⟨serverTrustConfig (some "0123456789abcdef0123456789abcdef") "" ""⟩
        200 ⟨ "HS256", "alice", 100, none, none, false⟩ ≠
      Except.error AuthError.expired := by
  refine ⟨by decide, ?_, ?_⟩
  · unfold JWTVerifier.verify serverTrustConfig
    decide
  · unfold JWTVerifier.verify serverTrustConfig
    decide

/-- C5 as amended: a credential whose expiry is not in the future at
verification time is always rejected, never verified successfully; when its
algorithm matches the pinned one and its signature is valid, the rejection
reason is Expired, expiry being checked right after signature validation. -/
theorem c5_expired_always_rejected (v : JWTVerifier) (now : Nat)
    (cred : Credential) (h : cred.exp ≤ now) :
    (∀ ctx : AuthContext, JWTVerifier.verify v now cred ≠ Except.ok ctx) ∧
    (cred.alg = v.cfg.algorithm → cred.sig_ok = true →
      JWTVerifier.verify v now cred = Except.error AuthError.expired) := by
  constructor
  · intro ctx
    unfold JWTVerifier.verify
    by_cases h1 : cred.alg ≠ v.cfg.algorithm
    · simp [h1]
    · by_cases h2 : cred.sig_ok = false
      · simp [h1, h2]
      · simp [h1, h2, h]
  · intro ha hs
    unfold JWTVerifier.verify
    simp [ha, hs, h]

/-- Witness for C5 as amended: an expired credential with a matching
algorithm and a valid signature is rejected with Expired. -/
theorem c5_witness :
    (Credential.exp ⟨ "HS256", "alice", 100, none, none, true⟩ ≤ 200) ∧
    JWTVerifier.verify ⟨serverTrustConfig (some "0123456789abcdef0123456789abcdef") "" ""⟩
        200 ⟨ "HS256", "alice", 100, none, none, true⟩ =
      Except.error AuthError.expired :=
  ⟨by decide,
    (c5_expired_always_rejected
        ⟨serverTrustConfig (some "0123456789abcdef0123456789abcdef") "" ""⟩
        200 ⟨ "HS256", "alice", 100, none, none, true⟩ (by decide)).2 rfl rfl⟩

/-- C6: the effective requires_permission of a registered entry is the
metadata override when present, otherwise true for a Tool entry and false
for a Resource entry, and the response envelope carries exactly this
effective value. -/
theorem c6_effective_permission (e : CapabilityEntry) (body : String) :
    (∀ b : Bool, e.requires_permission_meta = some b →
      effective_requires_permission e = b) ∧
    (e.requires_permission_meta = none → e.kind = CapabilityKind.tool →
      effective_requires_permission e = true) ∧
    (e.requires_permission_meta = none → e.kind = CapabilityKind.resource →
      effective_requires_permission e = false) ∧
    (annotateEnvelope e body).requires_permission =
      effective_requires_permission e := by
  refine ⟨?_, ?_, ?_, rfl⟩
  · intro b hb
    unfold effective_requires_permission
    simp [hb]
  · intro hn hk
    unfold effective_requires_permission
    simp [hn, hk]
  · intro hn hk
    unfold effective_requires_permission
    simp [hn, hk]

/-- Witness for C6 on the four registrations of src/server.py: the tool with
no override defaults to true, the tool overridden to false is false, the
resource with no override defaults to false, and the resource overridden to
true is true. -/
theorem c6_witness :
    effective_requires_permission add_two_numbers_entry = true ∧
    effective_requires_permission tool_without_permission_entry = false ∧
    effective_requires_permission get_hello_world_entry = false ∧
    effective_requires_permission get_hello_world_v2_with_permission_entry = true :=
  ⟨(c6_effective_permission add_two_numbers_entry "").2.1 rfl rfl,
   (c6_effective_permission tool_without_permission_entry "").1 false rfl,
   (c6_effective_permission get_hello_world_entry "").2.2.1 rfl rfl,
   (c6_effective_permission get_hello_world_v2_with_permission_entry "").1 true rfl⟩

/-- pickBest returns none exactly on the empty candidate list. -/
theorem pickBest_eq_none_iff (l : List ResourceTemplate) :
    pickBest l = none ↔ l = [] := by
  cases l with
  | nil => simp [pickBest]
  | cons t ts =>
    simp only [pickBest]
    cases h : pickBest ts with
    | none => simp
    | some b =>
      by_cases hb : placeholderCount b < placeholderCount t <;> simp [hb]

/-- The selected template splits its candidate list into a strict-min
position: every earlier candidate has strictly more placeholders and every
later one has at least as many, which is exactly fewest-placeholders-wins
with ties going to the first listed candidate. -/
theorem pickBest_spec (l : List ResourceTemplate) (t : ResourceTemplate)
    (h : pickBest l = some t) :
    ∃ l₁ l₂, l = l₁ ++ t :: l₂ ∧
      (∀ x ∈ l₁, placeholderCount t < placeholderCount x) ∧
      (∀ x ∈ l₂, placeholderCount t ≤ placeholderCount x) := by
  induction l generalizing t with
  | nil => simp [pickBest] at h
  | cons a ts ih =>
    simp only [pickBest] at h
    cases hb : pickBest ts with
    | none =>
      rw [hb] at h
      simp at h
      have hts : ts = [] := (pickBest_eq_none_iff ts).1 hb
      subst h
      exact ⟨[], [], by simp [hts], by simp, by simp⟩
    | some b =>
      rw [hb] at h
      replace h : (if placeholderCount b < placeholderCount a
          then some b else some a) = some t := h
      by_cases hlt : placeholderCount b < placeholderCount a
      · rw [if_pos hlt] at h
        have hbt : b = t := by injection h
        subst hbt
        obtain ⟨l₁, l₂, hdec, h₁, h₂⟩ := ih b hb
        refine ⟨a :: l₁, l₂, by rw [hdec]; rfl, ?_, h₂⟩
        intro x hx
        rcases List.mem_cons.1 hx with rfl | hx'
        · exact hlt
        · exact h₁ x hx'
      · rw [if_neg hlt] at h
        have hat : a = t := by injection h
        subst hat
        have hle : placeholderCount a ≤ placeholderCount b := Nat.le_of_not_lt hlt
        obtain ⟨l₁, l₂, hdec, h₁, h₂⟩ := ih b hb
        refine ⟨[], ts, by simp, by simp, ?_⟩
        intro x hx
        rw [hdec] at hx
        rcases List.mem_append.1 hx with hx₁ | hx₂
        · exact Nat.le_trans hle (Nat.le_of_lt (h₁ x hx₁))
        · rcases List.mem_cons.1 hx₂ with rfl | hx₂'
          · exact hle
          · exact Nat.le_trans hle (h₂ x hx₂')

/-- A filtered list that splits around one selected element induces the
corresponding split of the original list: the original is the selected
element between a prefix part and a suffix part whose filterings are
exactly the two sides of the filtered split. Filtering preserves order, so
this transports position facts about the filtered list back to positions in
the original list. -/
theorem filter_split_at_sel {α : Type} (p : α → Bool) :
    ∀ (l l₁ l₂ : List α) (t : α), l.filter p = l₁ ++ t :: l₂ →
      ∃ pre post, l = pre ++ t :: post ∧
        pre.filter p = l₁ ∧ post.filter p = l₂ := by
  intro l
  induction l with
  | nil =>
    intro l₁ l₂ t h
    simp at h
  | cons a as ih =>
    intro l₁ l₂ t h
    rw [List.filter_cons] at h
    by_cases hp : p a = true
    · simp only [hp, if_true] at h
      cases l₁ with
      | nil =>
        simp at h
        obtain ⟨rfl, hfa⟩ := h
        exact ⟨[], as, rfl, rfl, hfa⟩
      | cons b l₁' =>
        simp at h
        obtain ⟨rfl, hfa⟩ := h
        obtain ⟨pre', post', hreg, hpre, hpost⟩ := ih l₁' l₂ t hfa
        refine ⟨a :: pre', post', by rw [hreg]; rfl, ?_, hpost⟩
        rw [List.filter_cons]
        simp [hp, hpre]
    · simp only [hp, if_false] at h
      obtain ⟨pre', post', hreg, hpre, hpost⟩ := ih l₁ l₂ t h
      refine ⟨a :: pre', post', by rw [hreg]; rfl, ?_, hpost⟩
      rw [List.filter_cons]
      simp [hp, hpre]

/-- C8: whenever resolution selects a template, the selected template is a
registered one that matches the URI, no other matching registered template
has fewer placeholders, and the registry splits in registration order
around the selected template so that every template registered before it
that also matches has strictly more placeholders — so among matching
templates of minimal placeholder count the first registered one wins — and
every matching template registered after it has at least as many; and on
the two registered weather templates, a URI of the form
weather://city/current (for a non-empty city segment) matches the
current-weather template, fails to match the past-weather template
altogether, and resolution therefore selects the current-weather
template. -/
theorem c8_template_specificity :
    (∀ (registry : List ResourceTemplate) (uri : List String)
        (t : ResourceTemplate),
      resolveTemplate registry uri = some t →
        t ∈ registry ∧ segsMatch t.segments uri = true ∧
        (∀ t' ∈ registry, segsMatch t'.segments uri = true →
          placeholderCount t ≤ placeholderCount t') ∧
        ∃ pre post, registry = pre ++ t :: post ∧
          (∀ x ∈ pre, segsMatch x.segments uri = true →
            placeholderCount t < placeholderCount x) ∧
          (∀ x ∈ post, segsMatch x.segments uri = true →
            placeholderCount t ≤ placeholderCount x)) ∧
    (∀ city : String, city ≠ "" →
      segsMatch get_current_weather_template.segments
        [ "weather:", "", city, "current" ] = true ∧
      segsMatch get_past_weather_template.segments
        [ "weather:", "", city, "current" ] = false ∧
      resolveTemplate weatherTemplates [ "weather:", "", city, "current" ] =
        some get_current_weather_template) := by
  constructor
  · intro registry uri t h
    unfold resolveTemplate at h
    obtain ⟨l₁, l₂, hdec, h₁, h₂⟩ := pickBest_spec _ t h
    have htf : t ∈ registry.filter (fun t => segsMatch t.segments uri) := by
      rw [hdec]
      exact List.mem_append_right _ (List.mem_cons_self _ _)
    have hmem := List.mem_filter.1 htf
    refine ⟨hmem.1, hmem.2, ?_, ?_⟩
    · intro t' ht' hmatch
      have ht'f : t' ∈ registry.filter (fun t => segsMatch t.segments uri) :=
        List.mem_filter.2 ⟨ht', hmatch⟩
      rw [hdec] at ht'f
      rcases List.mem_append.1 ht'f with hx | hx
      · exact Nat.le_of_lt (h₁ t' hx)
      · rcases List.mem_cons.1 hx with rfl | hx'
        · exact Nat.le_refl _
        · exact h₂ t' hx'
    · obtain ⟨pre, post, hreg, hpre, hpost⟩ :=
        filter_split_at_sel (fun t => segsMatch t.segments uri)
          registry l₁ l₂ t hdec
      refine ⟨pre, post, hreg, ?_, ?_⟩
      · intro x hx hmx
        have hxf : x ∈ pre.filter (fun t => segsMatch t.segments uri) :=
          List.mem_filter.2 ⟨hx, hmx⟩
        rw [hpre] at hxf
        exact h₁ x hxf
      · intro x hx hmx
        have hxf : x ∈ post.filter (fun t => segsMatch t.segments uri) :=
          List.mem_filter.2 ⟨hx, hmx⟩
        rw [hpost] at hxf
        exact h₂ x hxf
  · intro city hc
    have hcb : (city == "") = false := by
      cases hcc : city == "" with
      | false => rfl
      | true => exact absurd (eq_of_beq hcc) hc
    have e1 : isPlaceholderSeg "weather:" = false := rfl
    have e2 : isPlaceholderSeg "" = false := rfl
    have e3 : isPlaceholderSeg "{city}" = true := rfl
    have e4 : isPlaceholderSeg "current" = false := rfl
    have e5 : segsMatch [ "past_weather" ] ([] : List String) = false := rfl
    have h1 : segsMatch get_current_weather_template.segments
        [ "weather:", "", city, "current" ] = true := by
      simp [get_current_weather_template, segsMatch, segMatch, e1, e2, e3, e4, hcb]
    have h2 : segsMatch get_past_weather_template.segments
        [ "weather:", "", city, "current" ] = false := by
      simp [get_past_weather_template, segsMatch, segMatch, e1, e2, e3, e5]
    refine ⟨h1, h2, ?_⟩
    unfold resolveTemplate weatherTemplates
    rw [List.filter_cons, List.filter_cons]
    simp only [h1, h2, if_true, if_false, List.filter_nil]
    rfl

/-- Witness for C8 at the concrete city london, together with a concrete
equal-placeholder-count tie: two single-placeholder templates both match the
URI and resolution returns the first registered one. -/
theorem c8_witness :
    (("london" : String) ≠ "") ∧
    resolveTemplate weatherTemplates [ "weather:", "", "london", "current" ] =
      some get_current_weather_template ∧
    placeholderCount ⟨[ "a", "{x}" ]⟩ = placeholderCount ⟨[ "a", "{y}" ]⟩ ∧
    segsMatch [ "a", "{x}" ] [ "a", "b" ] = true ∧
    segsMatch [ "a", "{y}" ] [ "a", "b" ] = true ∧
    resolveTemplate [ ⟨[ "a", "{x}" ]⟩, ⟨[ "a", "{y}" ]⟩ ] [ "a", "b" ] =
      some ⟨[ "a", "{x}" ]⟩ :=
  ⟨by decide, (c8_template_specificity.2 "london" (by decide)).2.2,
    by decide, by decide, by decide, by decide⟩

/-- C9: the invocation stage wraps a payload failure into an
InvocationError envelope, and serving continues unchanged after the failing
request: the envelope list of a batch starting with the failing request is
the failing envelope followed by exactly the envelopes of the remaining
requests, one per request. -/
theorem c9_invocation_error_isolated {A B : Type}
    (payload : A → Except String B) (input : A) (msg : String)
    (h : payload input = Except.error msg) (rest : List A) :
    (invokePayload payload input).status = PipelineStatus.invocationError ∧
    serveAll payload (input :: rest) =
      invokePayload payload input :: serveAll payload rest ∧
    (serveAll payload (input :: rest)).length = rest.length + 1 := by
  refine ⟨?_, rfl, by simp [serveAll]⟩
  unfold invokePayload
  rw [h]

/-- Witness for C9: dividing by zero raises, its envelope is
InvocationError, and the following request in the batch is still served
successfully. -/
theorem c9_witness :
    divide_two_numbers 1 0 = Except.error "division by zero" ∧
    (invokePayload (fun p : Int × Int => divide_two_numbers p.1 p.2)
      (1, 0)).status = PipelineStatus.invocationError ∧
    serveAll (fun p : Int × Int => divide_two_numbers p.1 p.2)
        [ (1, 0), (4, 2) ] =
      [ ⟨PipelineStatus.invocationError, none⟩,
        ⟨PipelineStatus.success, some 2⟩ ] :=
  ⟨rfl,
    (c9_invocation_error_isolated
      (fun p : Int × Int => divide_two_numbers p.1 p.2)
      (1, 0) "division by zero" rfl [ (4, 2) ]).1,
    by decide⟩

/-- C10 counterexample: with the secret environment variable set to the
empty string the secret is not unset, yet the script exits without emitting
a token, because the falsy test on line 13 of src/generate_token.py also
catches the empty string. -/
theorem c10_counterexample :
    (some "" : Option String) ≠ none ∧
    generate_token (some "") "issuer" "audience" 0 = none := by
  decide

/-- C10 as amended: the script emits no token when the secret is unset or
empty; for a non-empty secret it emits a token signed with HS256 and that
secret, with subject test-user, expiry exactly 365 days after the issued-at
instant, an issuer claim exactly when the issuer variable is non-empty and
an audience claim exactly when the audience variable is non-empty. -/
theorem c10_token_generation (secret issuer audience : String) (now : Nat)
    (h : secret ≠ "") :
    (∀ (iss aud : String) (n : Nat), generate_token none iss aud n = none) ∧
    generate_token (some "") issuer audience now = none ∧
    ∃ tok : JwtToken,
      generate_token (some secret) issuer audience now = some tok ∧
      tok.alg = "HS256" ∧ tok.key = secret ∧ tok.sub = "test-user" ∧
      tok.iat = now ∧ tok.exp = tok.iat + 365 * 86400 ∧
      (tok.iss = none ↔ issuer = "") ∧
      (issuer ≠ "" → tok.iss = some issuer) ∧
      (tok.aud = none ↔ audience = "") ∧
      (audience ≠ "" → tok.aud = some audience) := by
  refine ⟨fun iss aud n => rfl, rfl, ?_⟩
  refine ⟨⟨ "HS256", secret, "test-user", now, now + 365 * 86400,
    if issuer = "" then none else some issuer,
    if audience = "" then none else some audience⟩,
    ?_, rfl, rfl, rfl, rfl, rfl, ?_, ?_, ?_, ?_⟩
  · unfold generate_token
    simp [h]
  · by_cases hi : issuer = "" <;> simp [hi]
  · intro hi
    simp [hi]
  · by_cases ha : audience = "" <;> simp [ha]
  · intro ha
    simp [ha]

/-- Witness for C10 as amended at a concrete non-empty secret, a non-empty
issuer and an empty audience. -/
theorem c10_witness :
    (("configured-shared-secret" : String) ≠ "") ∧
    ∃ tok : JwtToken,
      generate_token (some "configured-shared-secret") "intric" "" 0 = some tok ∧
      tok.alg = "HS256" ∧ tok.key = "configured-shared-secret" ∧
      tok.sub = "test-user" ∧
      tok.iat = 0 ∧ tok.exp = tok.iat + 365 * 86400 ∧
      (tok.iss = none ↔ ("intric" : String) = "") ∧
      (("intric" : String) ≠ "" → tok.iss = some "intric") ∧
      (tok.aud = none ↔ ("" : String) = "") ∧
      (("" : String) ≠ "" → tok.aud = some "") :=
  ⟨by decide,
    (c10_token_generation "configured-shared-secret" "intric" "" 0 (by decide)).2.2⟩

/-- Witness for C7: under the shipped wildcard allowlist, a /health request
carrying an arbitrary origin and an invalid bearer credential is answered
OK even though the MCP endpoint behind the router would have rejected it. -/
theorem c7_witness :
    (Request.path ⟨some "198.51.100.7", "/health", some "not-a-valid-token"⟩ = "/health") ∧
    IPAllowlistMiddleware.gateAllows ⟨ALLOWED_IPS⟩ (some "198.51.100.7") = true ∧
    http_app ALLOWED_IPS (fun _ => AppResponse.jsonResponse 401 [])
        ⟨some "198.51.100.7", "/health", some "not-a-valid-token"⟩ =
      AppResponse.plainTextResponse "OK" :=
  ⟨rfl, by decide,
    c7_health_fixed_acknowledgment ALLOWED_IPS _ _ rfl (by decide)⟩

end IntricMCP
